import Mathlib

/-!
Verification of the retrieval-and-prompt-assembly pipeline of the
Dynamic-AI-Assistant backend (`backend/assistant_engine.py`,
`backend/main.py`), shallowly embedded in Lean 4.

The embedding follows the Python source:
* documents are `{page_content, metadata}` records, metadata an
  association list of string keys and values;
* the Groq completion client and the FAISS similarity search are opaque
  external services, modelled as function parameters;
* Python `"sep".join(parts)` is `joinStr sep parts`;
* Python substring containment `w in s` is `listSubstr w.data s.data`;
* the in-memory `assistants_store` dict is an association list with
  dict-style insert (replace) and delete (remove key).
-/

namespace DynamicAI

/-- A LangChain document: text plus provenance metadata.  Metadata is
modelled as an association list; only key presence and the value of the
`type` key matter to the engine. -/
structure Document where
  page_content : String
  metadata : List (String × String)
deriving Repr, DecidableEq

/-- `m.get(key, dflt)` on a Python dict. -/
def metaGet (m : List (String × String)) (key dflt : String) : String :=
  match m.lookup key with
  | some v => v
  | none => dflt

/-- `key in m` on a Python dict. -/
def metaHasKey (m : List (String × String)) (key : String) : Bool :=
  (m.lookup key).isSome

/-- Semantics of Python `sep.join(parts)`. -/
def joinStr (sep : String) : List String → String
  | [] => ""
  | [x] => x
  | x :: y :: xs => x ++ sep ++ joinStr sep (y :: xs)

/-- Boolean prefix test on character lists. -/
def listPrefixEq : List Char → List Char → Bool
  | [], _ => true
  | _ :: _, [] => false
  | a :: as, b :: bs => a == b && listPrefixEq as bs

/-- Boolean substring test on character lists: semantics of Python
`needle in hay`. -/
def listSubstr (needle : List Char) : List Char → Bool
  | [] => needle.isEmpty
  | c :: t => listPrefixEq needle (c :: t) || listSubstr needle t

theorem listPrefixEq_iff (n h : List Char) :
    listPrefixEq n h = true ↔ ∃ r, h = n ++ r := by
  induction n generalizing h with
  | nil => simp [listPrefixEq]
  | cons a as ih =>
    cases h with
    | nil => simp [listPrefixEq]
    | cons b bs =>
      simp only [listPrefixEq, Bool.and_eq_true, beq_iff_eq, ih, List.cons_append,
        List.cons.injEq]
      constructor
      · rintro ⟨rfl, r, rfl⟩
        exact ⟨r, rfl, rfl⟩
      · rintro ⟨r, rfl, rfl⟩
        exact ⟨rfl, r, rfl⟩

theorem listSubstr_iff (n h : List Char) :
    listSubstr n h = true ↔ ∃ l r, h = l ++ n ++ r := by
  induction h with
  | nil =>
    simp only [listSubstr, List.isEmpty_iff]
    constructor
    · rintro rfl
      exact ⟨[], [], rfl⟩
    · rintro ⟨l, r, hlr⟩
      rcases List.append_eq_nil.mp hlr.symm with ⟨h1, h2⟩
      exact (List.append_eq_nil.mp h1).2
  | cons c t ih =>
    simp only [listSubstr, Bool.or_eq_true, listPrefixEq_iff, ih]
    constructor
    · rintro (⟨r, hr⟩ | ⟨l, r, rfl⟩)
      · exact ⟨[], r, by simpa using hr⟩
      · exact ⟨c :: l, r, by simp⟩
    · rintro ⟨l, r, hlr⟩
      cases l with
      | nil =>
        left
        exact ⟨r, by simpa using hlr⟩
      | cons c0 l0 =>
        right
        refine ⟨l0, r, ?_⟩
        have h2 := hlr
        simp only [List.cons_append, List.cons.injEq] at h2
        exact h2.2

/-! ### Query classifier (`AssistantEngine.chat`, lines 85-86) -/

/-- The fixed keyword list of `assistant_engine.py` line 85. -/
def comparison_keywords : List String :=
  ["highest", "lowest", "best", "worst", "maximum", "minimum", "most",
   "least", "compare", "all", "which"]

/-- Semantics of Python `s.lower()` on the character list of `s`. -/
def lowerData (s : String) : List Char :=
  s.data.map Char.toLower

/-- `is_comparison = any(word in user_message.lower() for word in [...])`. -/
def is_comparison (user_message : String) : Bool :=
  comparison_keywords.any (fun word => listSubstr word.data (lowerData user_message))

/-- `k_docs = 30 if is_comparison else 8`. -/
def k_docs (user_message : String) : Nat :=
  if is_comparison user_message then 30 else 8

/-- C1: the classifier returns broad iff the lower-cased message contains
one of the fixed keywords as a substring; broad sets the retrieval depth
to 30 and narrow sets it to 8. -/
theorem classifier_broad_iff (user_message : String) :
    (is_comparison user_message = true ↔
      ∃ w ∈ comparison_keywords,
        ∃ l r, lowerData user_message = l ++ w.data ++ r) ∧
    (is_comparison user_message = true → k_docs user_message = 30) ∧
    (is_comparison user_message = false → k_docs user_message = 8) := by
  refine ⟨?_, fun h => by simp [k_docs, h], fun h => by simp [k_docs, h]⟩
  simp only [is_comparison, List.any_eq_true, listSubstr_iff]

/-- Witness for C1 at concrete messages: "which city is largest" is broad
with depth 30, "hello" is narrow with depth 8. -/
theorem classifier_broad_iff_witness :
    k_docs "which city is largest" = 30 ∧ k_docs "hello" = 8 :=
  ⟨(classifier_broad_iff "which city is largest").2.1 (by decide),
   (classifier_broad_iff "hello").2.2 (by decide)⟩

/-! ### System instructions (`AssistantEngine._build_system_instructions`) -/

/-- The fixed policy block appended unconditionally (lines 139-152). -/
def criticalRulesBlock : String :=
  "\nCRITICAL RESPONSE RULES:\n- You MUST ONLY answer questions based on the provided context/data\n- If the question is NOT related to the provided data, respond: 'I can only answer questions about the information provided in this dataset. Your question is outside my knowledge base.'\n- NEVER use general knowledge or external information\n- If the data doesn't contain the answer, say: 'I don't have information about that in the provided data.'\n\nRESPONSE FORMAT:\n- Write like a knowledgeable expert, NOT like someone analyzing documents\n- ABSOLUTELY NO mentions of 'Source 1', 'Source 2', 'the context', 'I examined', 'I found', etc.\n- State facts directly in smooth paragraphs\n- Example WRONG: 'According to Source 3, the CEO is John'\n- Example RIGHT: 'The CEO is John'\n- Be direct, concise, and natural"

/-- Block appended when `enable_statistics` (lines 154-159). -/
def statisticsBlock : String :=
  "\nSTATISTICAL ANALYSIS: Provide statistical insights such as averages, totals, trends, patterns, correlations, and distributions found in the data. Use these patterns to make informed predictions when asked about hypothetical scenarios."

/-- Block appended when `enable_alerts` (lines 161-165). -/
def alertsBlock : String :=
  "\nALERT DETECTION: Watch for anomalies, outliers, or important patterns in the data that may require attention."

/-- Block appended when `enable_recommendations` (lines 167-173). -/
def recommendationsBlock : String :=
  "\nRECOMMENDATIONS & PREDICTIONS: Provide actionable recommendations and predictions based on data patterns. When asked 'what if' questions, analyze similar cases in the data and provide reasoned predictions. Always explain your reasoning and which data patterns support your prediction."

/-- `_build_system_instructions`: the list of blocks, then `"\n".join`. -/
def build_system_instructions (custom_instructions : String)
    (enable_statistics enable_alerts enable_recommendations : Bool) : String :=
  joinStr "\n"
    ([custom_instructions, criticalRulesBlock]
      ++ (if enable_statistics then [statisticsBlock] else [])
      ++ (if enable_alerts then [alertsBlock] else [])
      ++ (if enable_recommendations then [recommendationsBlock] else []))

/-- C4: the system instructions are exactly the custom instructions, the
fixed policy block, and then the three optional blocks, each present iff
its flag is set, in that fixed order, joined by single newlines; flags
only append their own block and never disturb the rest. -/
theorem build_system_instructions_concat (custom_instructions : String)
    (enable_statistics enable_alerts enable_recommendations : Bool) :
    build_system_instructions custom_instructions
        enable_statistics enable_alerts enable_recommendations =
      custom_instructions ++ "\n" ++ criticalRulesBlock
        ++ (if enable_statistics then "\n" ++ statisticsBlock else "")
        ++ (if enable_alerts then "\n" ++ alertsBlock else "")
        ++ (if enable_recommendations then "\n" ++ recommendationsBlock else "") := by
  cases enable_statistics <;> cases enable_alerts <;> cases enable_recommendations <;>
    simp [build_system_instructions, joinStr, String.append_assoc]

/-! ### Context block (`AssistantEngine._build_context`, lines 177-185) -/

/-- The `context_parts` list built by the `for idx, doc in enumerate(documents, 1)`
loop: marker line, page content, empty separator entry, for each document. -/
def build_context_parts : Nat → List Document → List String
  | _, [] => []
  | idx, d :: rest =>
    ("[Source " ++ toString idx ++ "]") :: d.page_content :: "" ::
      build_context_parts (idx + 1) rest

/-- `_build_context`: `"\n".join(context_parts)`. -/
def build_context (documents : List Document) : String :=
  joinStr "\n" (build_context_parts 1 documents)

/-- Spec-side reading of the context block (for C6): one block per chunk,
the marker line atop the chunk text. -/
def sourceBlocks : Nat → List Document → List String
  | _, [] => []
  | idx, d :: rest =>
    ("[Source " ++ toString idx ++ "]\n" ++ d.page_content) ::
      sourceBlocks (idx + 1) rest

theorem joinStr_cons_ne (sep x : String) (xs : List String) (h : xs ≠ []) :
    joinStr sep (x :: xs) = x ++ sep ++ joinStr sep xs := by
  cases xs with
  | nil => exact absurd rfl h
  | cons y ys => rfl

theorem build_context_parts_ne (idx : Nat) (d : Document) (rest : List Document) :
    build_context_parts idx (d :: rest) ≠ [] := by
  simp [build_context_parts]

theorem sourceBlocks_ne (idx : Nat) (d : Document) (rest : List Document) :
    sourceBlocks idx (d :: rest) ≠ [] := by
  simp [sourceBlocks]

theorem context_join (docs : List Document) : ∀ idx : Nat, docs ≠ [] →
    joinStr "\n" (build_context_parts idx docs) =
      joinStr "\n\n" (sourceBlocks idx docs) ++ "\n" := by
  induction docs with
  | nil => exact fun idx h => absurd rfl h
  | cons d rest ih =>
    intro idx _
    cases rest with
    | nil =>
      show joinStr "\n" [_, _, ""] = joinStr "\n\n" [_] ++ "\n"
      simp [joinStr, String.append_assoc]
    | cons e rest2 =>
      have hne : e :: rest2 ≠ [] := by simp
      show joinStr "\n" (_ :: _ :: "" :: build_context_parts (idx + 1) (e :: rest2)) = _
      rw [joinStr_cons_ne _ _ _ (by simp),
        joinStr_cons_ne _ _ _ (by simp),
        joinStr_cons_ne _ _ _ (build_context_parts_ne (idx + 1) e rest2),
        ih (idx + 1) hne]
      show _ = joinStr "\n\n" (_ :: sourceBlocks (idx + 1) (e :: rest2)) ++ "\n"
      rw [joinStr_cons_ne _ _ _ (sourceBlocks_ne (idx + 1) e rest2)]
      apply String.ext
      simp only [String.data_append]
      have h0 : ("" : String).data = [] := rfl
      have h1 : ("\n" : String).data = ['\n'] := rfl
      have h2 : ("\n\n" : String).data = ['\n', '\n'] := rfl
      simp [h0, h1, h2]

/-- C6: for a non-empty retrieved chunk sequence, the context block is the
chunks' texts in retrieval order, the i-th prefixed with the marker
`[Source i]` on its own line (i starting at 1), consecutive chunks
separated by a blank line, with a trailing newline. -/
theorem build_context_blocks (documents : List Document) (h : documents ≠ []) :
    build_context documents =
      joinStr "\n\n" (sourceBlocks 1 documents) ++ "\n" :=
  context_join documents 1 h

/-- Witness for C6 at a concrete two-chunk list. -/
theorem build_context_blocks_witness :
    build_context [⟨"alpha", []⟩, ⟨"beta", []⟩] =
      "[Source 1]\nalpha\n\n[Source 2]\nbeta\n" := by
  rw [build_context_blocks [⟨"alpha", []⟩, ⟨"beta", []⟩] (by simp)]
  rfl

/-! ### Answering-style selection and prompt (`AssistantEngine._build_prompt`) -/

/-- The metadata `type` values marking page-derived content (line 201). -/
def websiteTypes : List String :=
  ["website_content", "website_section", "website_paragraph"]

/-- The three answering-style variants of `_build_prompt`. -/
inductive StyleVariant
  | website
  | structured
  | generic
deriving Repr, DecidableEq

/-- The `for doc in documents[:3]` loop (lines 199-206): the first document
whose metadata matches sets exactly one flag and then `break`s; the
`if`/`elif` checks the website type before `row_number`/`item_number`. -/
def detect_style : List Document → StyleVariant
  | [] => .generic
  | d :: rest =>
    if websiteTypes.contains (metaGet d.metadata "type" "") then .website
    else if metaHasKey d.metadata "row_number" || metaHasKey d.metadata "item_number" then
      .structured
    else detect_style rest

/-- The style used by `_build_prompt` for a document list: inspect at most
the first 3 documents. -/
def style_of_documents (documents : List Document) : StyleVariant :=
  detect_style (documents.take 3)

/-- The three `answering_instructions` texts (lines 208-222). -/
def answering_instructions : StyleVariant → String
  | .website =>
    "Answer the user's question directly and naturally.\nWrite in clear paragraphs as if you're a knowledgeable expert explaining the topic.\nFocus on providing useful information without meta-commentary."
  | .structured =>
    "CRITICAL: For comparison queries (highest, lowest, best, worst, etc.):\n1. Examine EVERY source systematically\n2. Compare all values for the metric\n3. State the actual maximum/minimum found\n\nFor other queries: Provide clear, direct answers based on the data.\nIf asked practical questions beyond the data, offer helpful advice."
  | .generic =>
    "Examine the sources carefully and provide a clear, direct answer.\nBe helpful and informative."

/-- `_build_prompt`'s final f-string template (lines 224-238). -/
def build_prompt (system_instructions context user_message : String)
    (documents : List Document) : String :=
  "<SYSTEM_INSTRUCTIONS>\n" ++ system_instructions ++
    "\n</SYSTEM_INSTRUCTIONS>\n\n<CONTEXT>\n" ++ context ++
    "\n</CONTEXT>\n\n<USER_QUESTION>\n" ++ user_message ++
    "\n</USER_QUESTION>\n\n" ++
    answering_instructions (style_of_documents documents)

/-- A document carrying a `row_number` key, followed by a page-derived
document: the inputs on which C2's any-scan reading diverges from the code. -/
def structuredThenWebsiteDocs : List Document :=
  [⟨"row one", [("row_number", "1")]⟩,
   ⟨"about page", [("type", "website_content")]⟩]

/-- C2 counterexample: with a `row_number` chunk first and a page-derived
chunk second among the inspected chunks, the code selects the structured
variant, not the narrative one the claim requires. -/
theorem style_break_counterexample :
    style_of_documents structuredThenWebsiteDocs = StyleVariant.structured ∧
    StyleVariant.structured ≠ StyleVariant.website := by
  exact ⟨by decide, by decide⟩

/-- Whether a document triggers the metadata loop (website type, or a
`row_number`/`item_number` key). -/
def styleTrigger (d : Document) : Bool :=
  websiteTypes.contains (metaGet d.metadata "type" "") ||
    (metaHasKey d.metadata "row_number" || metaHasKey d.metadata "item_number")

/-- C2 amended: the variant is decided by the FIRST chunk among the first 3
whose metadata has a website `type` or a `row_number`/`item_number` key —
website type (checked first within that chunk) gives the narrative variant,
otherwise the structured variant; if no inspected chunk matches, the
generic variant is used.  A later page-derived chunk does NOT override an
earlier structured chunk. -/
theorem style_first_trigger (documents : List Document) :
    style_of_documents documents =
      match (documents.take 3).find? styleTrigger with
      | none => StyleVariant.generic
      | some d =>
        if websiteTypes.contains (metaGet d.metadata "type" "") then StyleVariant.website
        else StyleVariant.structured := by
  unfold style_of_documents
  generalize documents.take 3 = l
  induction l with
  | nil => rfl
  | cons d rest ih =>
    simp only [detect_style, List.find?, styleTrigger]
    cases hw : websiteTypes.contains (metaGet d.metadata "type" "") with
    | true =>
      have hm : metaGet d.metadata "type" "" ∈ websiteTypes := by simpa using hw
      simp [hm]
    | false =>
      have hm : ¬ metaGet d.metadata "type" "" ∈ websiteTypes := by simpa using hw
      cases hs : (metaHasKey d.metadata "row_number" ||
          metaHasKey d.metadata "item_number") with
      | true => simp [hm]
      | false => simpa using ih

/-- C7: prompt composition is deterministic — equal system instructions,
equal retrieved chunks and an equal question compose to the identical
prompt string on any two runs. -/
theorem prompt_composition_deterministic
    (si₁ si₂ : String) (docs₁ docs₂ : List Document) (q₁ q₂ : String)
    (hs : si₁ = si₂) (hd : docs₁ = docs₂) (hq : q₁ = q₂) :
    build_prompt si₁ (build_context docs₁) q₁ docs₁ =
      build_prompt si₂ (build_context docs₂) q₂ docs₂ := by
  subst hs; subst hd; subst hq; rfl

/-- Witness for C7 at a concrete input. -/
theorem prompt_composition_deterministic_witness :
    build_prompt "sys" (build_context [⟨"alpha", []⟩]) "q" [⟨"alpha", []⟩] =
      build_prompt "sys" (build_context [⟨"alpha", []⟩]) "q" [⟨"alpha", []⟩] :=
  prompt_composition_deterministic "sys" "sys" [⟨"alpha", []⟩] [⟨"alpha", []⟩]
    "q" "q" rfl rfl rfl

/-! ### Assistant configuration and the chat pipeline (`AssistantEngine`) -/

/-- The `assistant_config` dict (`create_assistant`, lines 54-65).  The
vector store is modelled by the chunk list it was built from: building the
external FAISS index is opaque and retains exactly the chunks. -/
structure AssistantConfig where
  assistant_id : String
  name : String
  vector_store : List Document
  custom_instructions : String
  system_instructions : String
  documents_count : Nat
  enable_statistics : Bool
  enable_alerts : Bool
  enable_recommendations : Bool
  created_at : String
deriving Repr, DecidableEq

/-- `AssistantEngine.create_assistant` (lines 30-68): build the vector
store and the system instructions and assemble the config dict. -/
def engine_create_assistant (assistant_id name : String)
    (documents : List Document) (custom_instructions : String)
    (enable_statistics enable_alerts enable_recommendations : Bool)
    (created_at : String) : AssistantConfig :=
  { assistant_id := assistant_id
    name := name
    vector_store := documents
    custom_instructions := custom_instructions
    system_instructions := build_system_instructions custom_instructions
      enable_statistics enable_alerts enable_recommendations
    documents_count := documents.length
    enable_statistics := enable_statistics
    enable_alerts := enable_alerts
    enable_recommendations := enable_recommendations
    created_at := created_at }

/-- One entry of the `relevant_documents` preview (chat, lines 113-119). -/
structure DocPreview where
  content : String
  metadata : List (String × String)
deriving Repr, DecidableEq

/-- The dict returned by `AssistantEngine.chat`: the short-circuit result
carries no `relevant_documents` key at all, modelled by `none`. -/
structure ChatResult where
  response : String
  sources_used : Nat
  timestamp : String
  relevant_documents : Option (List DocPreview)
deriving Repr, DecidableEq

/-- The fixed insufficient-information response (chat, line 96). -/
def insufficientResponse : String :=
  "I don't have enough information to answer that question based on the provided data."

/-- `{"content": doc.page_content[:200] + "...", "metadata": doc.metadata}`. -/
def previewEntry (d : Document) : DocPreview :=
  ⟨String.mk (d.page_content.data.take 200) ++ "...", d.metadata⟩

/-- `AssistantEngine.chat` (lines 74-127).  The FAISS similarity search
and the Groq completion client are opaque external services, passed as
`search` and `llm`; a raised provider error is an `Except.error`. -/
def chat (search : List Document → String → Nat → List Document)
    (llm : String → Except String String)
    (assistant_config : AssistantConfig) (user_message : String)
    (timestamp : String) : Except String ChatResult :=
  let relevant_docs :=
    search assistant_config.vector_store user_message (k_docs user_message)
  if relevant_docs.isEmpty then
    Except.ok { response := insufficientResponse, sources_used := 0,
                timestamp := timestamp, relevant_documents := none }
  else
    match llm (build_prompt assistant_config.system_instructions
        (build_context relevant_docs) user_message relevant_docs) with
    | Except.error e => Except.error e
    | Except.ok content =>
      Except.ok { response := content, sources_used := relevant_docs.length,
                  timestamp := timestamp,
                  relevant_documents := some (relevant_docs.map previewEntry) }

/-- C3: when the similarity search returns zero chunks, chat returns the
fixed insufficient-information result with `sources_used = 0`, the result
does not depend on the completion provider (no LLM call), and this is the
only degraded response: on any non-empty retrieval a successful result's
text is exactly the provider's completion, with a positive source count. -/
theorem chat_zero_retrieval_short_circuit
    (search : List Document → String → Nat → List Document)
    (llm : String → Except String String)
    (cfg : AssistantConfig) (msg ts : String)
    (h : search cfg.vector_store msg (k_docs msg) = []) :
    chat search llm cfg msg ts =
      Except.ok { response := insufficientResponse, sources_used := 0,
                  timestamp := ts, relevant_documents := none } ∧
    (∀ llm', chat search llm' cfg msg ts = chat search llm cfg msg ts) ∧
    (∀ (search' : List Document → String → Nat → List Document)
        (r : ChatResult),
      search' cfg.vector_store msg (k_docs msg) ≠ [] →
      chat search' llm cfg msg ts = Except.ok r →
      ∃ content,
        llm (build_prompt cfg.system_instructions
            (build_context (search' cfg.vector_store msg (k_docs msg))) msg
            (search' cfg.vector_store msg (k_docs msg))) =
          Except.ok content ∧
        r.response = content ∧
        r.sources_used = (search' cfg.vector_store msg (k_docs msg)).length ∧
        r.sources_used ≠ 0) := by
  refine ⟨by simp [chat, h], fun llm' => by simp [chat, h], ?_⟩
  intro search' r hne hok
  have hE : (search' cfg.vector_store msg (k_docs msg)).isEmpty = false := by
    simpa [List.isEmpty_iff] using hne
  simp only [chat, hE, Bool.false_eq_true, if_false] at hok
  cases hl : llm (build_prompt cfg.system_instructions
      (build_context (search' cfg.vector_store msg (k_docs msg))) msg
      (search' cfg.vector_store msg (k_docs msg))) with
  | error e => rw [hl] at hok; simp at hok
  | ok content =>
    rw [hl] at hok
    simp only [Except.ok.injEq] at hok
    subst hok
    refine ⟨content, rfl, rfl, rfl, ?_⟩
    simpa [List.length_eq_zero] using hne

/-- A concrete configuration used by witnesses. -/
def sampleConfig : AssistantConfig :=
  engine_create_assistant "id-1" "sample" [⟨"alpha", []⟩] "custom"
    false false false "t0"

/-- Witness for C3: an always-empty search short-circuits. -/
theorem chat_zero_retrieval_short_circuit_witness :
    chat (fun _ _ _ => []) (fun _ => Except.ok "reply") sampleConfig "hi" "t1" =
      Except.ok { response := insufficientResponse, sources_used := 0,
                  timestamp := "t1", relevant_documents := none } :=
  (chat_zero_retrieval_short_circuit (fun _ _ _ => [])
    (fun _ => Except.ok "reply") sampleConfig "hi" "t1" rfl).1

/-- C9: in a successful chat result over a non-empty retrieval, every
preview entry's content is the first 200 characters of the chunk text with
"..." appended unconditionally; for chunks shorter than 200 characters the
preview is the full text plus "..." and thus never the original text; the
zero-retrieval result carries no `relevant_documents` field. -/
theorem chat_preview_truncation
    (search : List Document → String → Nat → List Document)
    (llm : String → Except String String)
    (cfg : AssistantConfig) (msg ts : String) :
    (∀ r : ChatResult, chat search llm cfg msg ts = Except.ok r →
      (search cfg.vector_store msg (k_docs msg) = [] →
        r.relevant_documents = none) ∧
      (search cfg.vector_store msg (k_docs msg) ≠ [] →
        r.relevant_documents =
          some ((search cfg.vector_store msg (k_docs msg)).map previewEntry))) ∧
    (∀ d : Document,
      (previewEntry d).content = String.mk (d.page_content.data.take 200) ++ "...") ∧
    (∀ d : Document, d.page_content.data.length < 200 →
      (previewEntry d).content = d.page_content ++ "..." ∧
      (previewEntry d).content ≠ d.page_content) := by
  refine ⟨?_, fun d => rfl, ?_⟩
  · intro r hok
    constructor
    · intro h
      simp [chat, h] at hok
      rw [← hok]
    · intro hne
      have hE : (search cfg.vector_store msg (k_docs msg)).isEmpty = false := by
        simpa [List.isEmpty_iff] using hne
      simp only [chat, hE, Bool.false_eq_true, if_false] at hok
      cases hl : llm (build_prompt cfg.system_instructions
          (build_context (search cfg.vector_store msg (k_docs msg))) msg
          (search cfg.vector_store msg (k_docs msg))) with
      | error e => rw [hl] at hok; simp at hok
      | ok content =>
        rw [hl] at hok
        simp only [Except.ok.injEq] at hok
        subst hok
        rfl
  · intro d hlen
    have htake : d.page_content.data.take 200 = d.page_content.data :=
      List.take_of_length_le (Nat.le_of_lt hlen)
    have hfull : (previewEntry d).content = d.page_content ++ "..." := by
      simp [previewEntry, htake]
    refine ⟨hfull, ?_⟩
    intro heq
    have hlen2 := congrArg (fun s : String => s.data.length) (hfull ▸ heq)
    have hdots : ("..." : String).data = ['.', '.', '.'] := rfl
    simp [String.data_append, hdots] at hlen2

/-- Witness for C9: a successful turn over one short chunk previews the
full text plus "...", and the preview differs from the original text. -/
theorem chat_preview_truncation_witness :
    (previewEntry ⟨"alpha", []⟩).content = "alpha" ++ "..." ∧
    (previewEntry ⟨"alpha", []⟩).content ≠ "alpha" := by
  have h := (chat_preview_truncation (fun _ _ _ => [⟨"alpha", []⟩])
    (fun _ => Except.ok "reply") sampleConfig "hi" "t1").2.2
    ⟨"alpha", []⟩ (by decide)
  exact h

/-! ### The in-memory registry and the HTTP routes (`backend/main.py`) -/

/-- The process-wide `assistants_store` dict, keyed by assistant id. -/
abbrev Registry := List (String × AssistantConfig)

/-- `assistants_store[assistant_id]` (read). -/
def regLookup (store : Registry) (assistant_id : String) : Option AssistantConfig :=
  store.lookup assistant_id

/-- `assistant_id in assistants_store`. -/
def regHasKey (store : Registry) (assistant_id : String) : Bool :=
  (store.lookup assistant_id).isSome

/-- `del assistants_store[assistant_id]`. -/
def regErase (store : Registry) (assistant_id : String) : Registry :=
  store.filter (fun p => !(p.1 == assistant_id))

/-- `assistants_store[assistant_id] = config` (dict write). -/
def regInsert (store : Registry) (assistant_id : String)
    (cfg : AssistantConfig) : Registry :=
  (assistant_id, cfg) :: regErase store assistant_id

theorem beq_false_of_ne {a b : String} (h : a ≠ b) : (a == b) = false := by
  cases hb : a == b with
  | false => rfl
  | true => exact absurd (eq_of_beq hb) h

theorem regLookup_erase_self (store : Registry) (assistant_id : String) :
    regLookup (regErase store assistant_id) assistant_id = none := by
  induction store with
  | nil => rfl
  | cons p t ih =>
    obtain ⟨k, v⟩ := p
    by_cases hk : k = assistant_id
    · subst hk
      simpa [regErase, regLookup, List.filter_cons] using ih
    · have hb1 : (k == assistant_id) = false := beq_false_of_ne hk
      have hb2 : (assistant_id == k) = false := beq_false_of_ne (Ne.symm hk)
      simpa [regErase, regLookup, List.filter_cons, List.lookup, hb1, hb2]
        using ih

theorem regLookup_erase_ne (store : Registry) (assistant_id id' : String)
    (h : id' ≠ assistant_id) :
    regLookup (regErase store assistant_id) id' = regLookup store id' := by
  induction store with
  | nil => rfl
  | cons p t ih =>
    obtain ⟨k, v⟩ := p
    by_cases hk : k = assistant_id
    · have hb1 : (k == assistant_id) = true := by simp [hk]
      have hb2 : (id' == k) = false := beq_false_of_ne (fun hh => h (hh.trans hk))
      simpa [regErase, regLookup, List.filter_cons, List.lookup, hb1, hb2]
        using ih
    · have hb1 : (k == assistant_id) = false := beq_false_of_ne hk
      by_cases hk2 : id' = k
      · have hb2 : (id' == k) = true := by simp [hk2]
        simp [regErase, regLookup, List.filter_cons, List.lookup, hb1, hb2]
      · have hb2 : (id' == k) = false := beq_false_of_ne hk2
        simpa [regErase, regLookup, List.filter_cons, List.lookup, hb1, hb2]
          using ih

theorem regLookup_insert_self (store : Registry) (assistant_id : String)
    (cfg : AssistantConfig) :
    regLookup (regInsert store assistant_id cfg) assistant_id = some cfg := by
  simp [regInsert, regLookup, List.lookup]

/-- `POST /api/assistants/create` (lines 170-187): reject an empty load
with a 400 before building anything, otherwise build the config and store
it under the fresh id. -/
def create_assistant_route (store : Registry) (assistant_id name : String)
    (documents : List Document) (custom_instructions : String)
    (enable_statistics enable_alerts enable_recommendations : Bool)
    (created_at : String) : Except Nat (Registry × AssistantConfig) :=
  if documents.isEmpty then Except.error 400
  else
    Except.ok (regInsert store assistant_id
      (engine_create_assistant assistant_id name documents custom_instructions
        enable_statistics enable_alerts enable_recommendations created_at),
      engine_create_assistant assistant_id name documents custom_instructions
        enable_statistics enable_alerts enable_recommendations created_at)

/-- The `ChatResponse` body of `POST /api/chat`. -/
structure ChatResponseModel where
  assistant_id : String
  user_message : String
  assistant_response : String
  sources_used : Nat
  timestamp : String
deriving Repr, DecidableEq

/-- `POST /api/chat` (lines 207-242): 404 when the id is unknown, 500 when
the engine raises, otherwise the engine's result. -/
def chat_route (search : List Document → String → Nat → List Document)
    (llm : String → Except String String) (store : Registry)
    (assistant_id message ts : String) : Except Nat ChatResponseModel :=
  match regLookup store assistant_id with
  | none => Except.error 404
  | some cfg =>
    match chat search llm cfg message ts with
    | Except.error _ => Except.error 500
    | Except.ok r =>
      Except.ok ⟨assistant_id, message, r.response, r.sources_used, r.timestamp⟩

/-- `DELETE /api/assistants/{assistant_id}` (lines 294-311): 404 when the
id is unknown, otherwise remove the entry (file cleanup is out of scope). -/
def delete_assistant_route (store : Registry) (assistant_id : String) :
    Except Nat Registry :=
  if regHasKey store assistant_id then Except.ok (regErase store assistant_id)
  else Except.error 404

/-- C5: a creation request with an empty document sequence is rejected with
an error before any assistant is stored; a successful creation stores a
record whose `documents_count` is exactly the (positive) number of loaded
documents, and preserves the registry-wide positivity invariant. -/
theorem create_assistant_positive_count (store : Registry)
    (assistant_id name : String) (documents : List Document)
    (custom_instructions : String)
    (enable_statistics enable_alerts enable_recommendations : Bool)
    (created_at : String) :
    (documents = [] →
      create_assistant_route store assistant_id name documents
        custom_instructions enable_statistics enable_alerts
        enable_recommendations created_at = Except.error 400) ∧
    (∀ (store' : Registry) (cfg : AssistantConfig),
      create_assistant_route store assistant_id name documents
        custom_instructions enable_statistics enable_alerts
        enable_recommendations created_at = Except.ok (store', cfg) →
      documents ≠ [] ∧
      regLookup store' assistant_id = some cfg ∧
      cfg.documents_count = documents.length ∧
      0 < cfg.documents_count ∧
      ((∀ p ∈ store, 0 < p.2.documents_count) →
        ∀ p ∈ store', 0 < p.2.documents_count)) := by
  constructor
  · intro h
    simp [create_assistant_route, h]
  · intro store' cfg hok
    have hne : documents ≠ [] := by
      intro h
      simp [create_assistant_route, h] at hok
    have hE : documents.isEmpty = false := by
      simpa [List.isEmpty_iff] using hne
    simp only [create_assistant_route, hE, Bool.false_eq_true, if_false,
      Except.ok.injEq, Prod.mk.injEq] at hok
    obtain ⟨h1, h2⟩ := hok
    subst h1
    subst h2
    refine ⟨hne, regLookup_insert_self _ _ _, rfl, List.length_pos.mpr hne, ?_⟩
    intro hstore p hp
    rcases List.mem_cons.mp hp with hp1 | hp2
    · subst hp1
      exact List.length_pos.mpr hne
    · exact hstore p (List.mem_of_mem_filter hp2)

/-- Witness for C5: the empty load is rejected with a 400. -/
theorem create_assistant_positive_count_witness :
    create_assistant_route [] "id-1" "sample" [] "custom"
      false false false "t0" = Except.error 400 :=
  (create_assistant_positive_count [] "id-1" "sample" [] "custom"
    false false false "t0").1 rfl

/-- C8: deleting a present id removes exactly that id (every other id's
record is untouched) and a subsequent chat for it fails with 404 whatever
the search and completion providers are (the pipeline is not invoked);
deleting or chatting with an absent id also fails with 404. -/
theorem delete_removes_and_404 (store : Registry) (assistant_id : String) :
    (regHasKey store assistant_id = true →
      delete_assistant_route store assistant_id =
        Except.ok (regErase store assistant_id) ∧
      regLookup (regErase store assistant_id) assistant_id = none ∧
      (∀ id', id' ≠ assistant_id →
        regLookup (regErase store assistant_id) id' = regLookup store id') ∧
      (∀ search llm msg ts,
        chat_route search llm (regErase store assistant_id)
          assistant_id msg ts = Except.error 404)) ∧
    (regHasKey store assistant_id = false →
      delete_assistant_route store assistant_id = Except.error 404 ∧
      (∀ search llm msg ts,
        chat_route search llm store assistant_id msg ts =
          Except.error 404)) := by
  constructor
  · intro h
    refine ⟨by simp [delete_assistant_route, h],
      regLookup_erase_self store assistant_id,
      fun id' h' => regLookup_erase_ne store assistant_id id' h', ?_⟩
    intro search llm msg ts
    simp [chat_route, regLookup_erase_self store assistant_id]
  · intro h
    have hl : regLookup store assistant_id = none := by
      cases ho : regLookup store assistant_id with
      | none => rfl
      | some v =>
        exfalso
        simp only [regLookup] at ho
        simp [regHasKey, ho] at h
    exact ⟨by simp [delete_assistant_route, h],
      fun search llm msg ts => by simp [chat_route, hl]⟩

/-- Witness for C8: deleting the only id succeeds and empties the registry. -/
theorem delete_removes_and_404_witness :
    delete_assistant_route [("a", sampleConfig)] "a" =
      Except.ok (regErase [("a", sampleConfig)] "a") :=
  ((delete_removes_and_404 [("a", sampleConfig)] "a").1 rfl).1

/-! ### Read-only operations and the request handler (C10) -/

/-- The projection returned by `AssistantEngine.get_assistant_stats`
(lines 240-251). -/
structure AssistantStats where
  assistant_id : String
  name : String
  documents_count : Nat
  created_at : String
  statistics : Bool
  alerts : Bool
  recommendations : Bool
deriving Repr, DecidableEq

/-- `get_assistant_stats`: a pure projection of the config. -/
def get_assistant_stats (assistant_config : AssistantConfig) : AssistantStats :=
  { assistant_id := assistant_config.assistant_id
    name := assistant_config.name
    documents_count := assistant_config.documents_count
    created_at := assistant_config.created_at
    statistics := assistant_config.enable_statistics
    alerts := assistant_config.enable_alerts
    recommendations := assistant_config.enable_recommendations }

/-- One entry of `GET /api/assistants` (lines 277-285). -/
structure ListEntry where
  assistant_id : String
  name : String
  documents_count : Nat
  created_at : String
deriving Repr, DecidableEq

/-- The requests the hosting layer dispatches on the registry. -/
inductive Request
  | create (assistant_id name : String) (documents : List Document)
      (custom_instructions : String)
      (enable_statistics enable_alerts enable_recommendations : Bool)
      (created_at : String)
  | chatTurn (assistant_id message ts : String)
  | info (assistant_id : String)
  | listAll
  | stats (assistant_id : String)
  | delete (assistant_id : String)

/-- The outcome a route hands back to the client. -/
inductive Outcome
  | created (cfg : AssistantConfig)
  | chatted (resp : ChatResponseModel)
  | infoOut (cfg : AssistantConfig)
  | listed (entries : List ListEntry)
  | statsOut (s : AssistantStats)
  | deleted
  | failed (code : Nat)

/-- Dispatch of one request against the registry, following `main.py`:
each handler returns the (possibly updated) registry and the outcome. -/
def handle (search : List Document → String → Nat → List Document)
    (llm : String → Except String String) (req : Request)
    (store : Registry) : Registry × Outcome :=
  match req with
  | .create assistant_id name documents custom s a r ts =>
    match create_assistant_route store assistant_id name documents
        custom s a r ts with
    | Except.error c => (store, .failed c)
    | Except.ok (store', cfg) => (store', .created cfg)
  | .chatTurn assistant_id message ts =>
    match chat_route search llm store assistant_id message ts with
    | Except.error c => (store, .failed c)
    | Except.ok resp => (store, .chatted resp)
  | .info assistant_id =>
    match regLookup store assistant_id with
    | none => (store, .failed 404)
    | some cfg => (store, .infoOut cfg)
  | .listAll =>
    (store, .listed (store.map (fun p =>
      ⟨p.2.assistant_id, p.2.name, p.2.documents_count, p.2.created_at⟩)))
  | .stats assistant_id =>
    match regLookup store assistant_id with
    | none => (store, .failed 404)
    | some cfg => (store, .statsOut (get_assistant_stats cfg))
  | .delete assistant_id =>
    match delete_assistant_route store assistant_id with
    | Except.error c => (store, .failed c)
    | Except.ok store' => (store', .deleted)

/-- C10: chat turns (successful, short-circuited or failed) and stats
queries leave the registry — and hence every stored configuration and each
of its fields — unchanged; only create and delete requests can modify the
registry mapping. -/
theorem chat_and_stats_read_only
    (search : List Document → String → Nat → List Document)
    (llm : String → Except String String) (store : Registry) :
    (∀ assistant_id message ts,
      (handle search llm (Request.chatTurn assistant_id message ts) store).1 =
        store) ∧
    (∀ assistant_id,
      (handle search llm (Request.stats assistant_id) store).1 = store) ∧
    (∀ assistant_id cfg, regLookup store assistant_id = some cfg →
      ∀ message ts,
        regLookup (handle search llm
            (Request.chatTurn assistant_id message ts) store).1 assistant_id =
          some cfg ∧
        regLookup (handle search llm
            (Request.stats assistant_id) store).1 assistant_id = some cfg) ∧
    (∀ req : Request, (handle search llm req store).1 ≠ store →
      (∃ assistant_id name documents custom s a r ts,
        req = Request.create assistant_id name documents custom s a r ts) ∨
      (∃ assistant_id, req = Request.delete assistant_id)) := by
  have hchat : ∀ assistant_id message ts,
      (handle search llm (Request.chatTurn assistant_id message ts) store).1 =
        store := by
    intro assistant_id message ts
    cases h : chat_route search llm store assistant_id message ts with
    | error c => simp [handle, h]
    | ok resp => simp [handle, h]
  have hstats : ∀ assistant_id,
      (handle search llm (Request.stats assistant_id) store).1 = store := by
    intro assistant_id
    cases h : regLookup store assistant_id with
    | none => simp [handle, h]
    | some cfg => simp [handle, h]
  have hinfo : ∀ assistant_id,
      (handle search llm (Request.info assistant_id) store).1 = store := by
    intro assistant_id
    cases h : regLookup store assistant_id with
    | none => simp [handle, h]
    | some cfg => simp [handle, h]
  refine ⟨hchat, hstats, ?_, ?_⟩
  · intro assistant_id cfg hcfg message ts
    rw [hchat assistant_id message ts, hstats assistant_id]
    exact ⟨hcfg, hcfg⟩
  · intro req hne
    cases req with
    | create assistant_id name documents custom s a r ts =>
      exact Or.inl ⟨assistant_id, name, documents, custom, s, a, r, ts, rfl⟩
    | chatTurn assistant_id message ts =>
      exact absurd (hchat assistant_id message ts) hne
    | info assistant_id => exact absurd (hinfo assistant_id) hne
    | listAll => exact absurd rfl hne
    | stats assistant_id => exact absurd (hstats assistant_id) hne
    | delete assistant_id => exact Or.inr ⟨assistant_id, rfl⟩

/-- Witness for C10: on a one-entry registry, a chat turn and a stats query
leave the stored configuration retrievable unchanged. -/
theorem chat_and_stats_read_only_witness :
    regLookup (handle (fun _ _ _ => []) (fun _ => Except.ok "reply")
        (Request.chatTurn "a" "hi" "t1") [("a", sampleConfig)]).1 "a" =
      some sampleConfig ∧
    regLookup (handle (fun _ _ _ => []) (fun _ => Except.ok "reply")
        (Request.stats "a") [("a", sampleConfig)]).1 "a" =
      some sampleConfig :=
  ((chat_and_stats_read_only (fun _ _ _ => []) (fun _ => Except.ok "reply")
    [("a", sampleConfig)]).2.2.1 "a" sampleConfig rfl "hi" "t1")

end DynamicAI
